import Mathlib

/-!
# Verification of the home-dashboard core against its specification

Shallow embedding of the core components of the `home-dashboard` repository:
the TTL cache (`home_dashboard/cache.py`), the auth/session state managers
(`home_dashboard/state_managers.py`), the Spotify service
(`home_dashboard/services/spotify_service.py`), the TV Tizen services
(`home_dashboard/services/tv_tizen_service.py` and
`api_app/api_app/services/tv_tizen_service.py`), the OAuth state handling of
`home_dashboard/routers/spotify_router.py`, and the weather mapping of
`home_dashboard/models/weather.py`.

Wall-clock time (Python `time.time()` / `datetime.now()`) is modelled as a
rational number passed explicitly to each operation that reads the clock.
Python dictionaries are modelled as association lists with unique keys
(insertion erases any previous binding).  Fallible Python code is modelled
with `Except`, where the error type `PyExc` mirrors the exception classes of
`home_dashboard/exceptions.py` plus the built-in exceptions that occur.
-/

/-- Python exception values, by kind, as raised by the embedded code.
`str(e)` of the dashboard exceptions is the stored message. -/
inductive PyExc where
  /-- `home_dashboard.exceptions.SpotifyException` (the plain base class). -/
  | spotifyExc (msg : String)
  /-- `SpotifyAuthException`. -/
  | spotifyAuthExc (msg : String)
  /-- `SpotifyNotAuthenticatedException`. -/
  | spotifyNotAuthExc (msg : String)
  /-- `SpotifyAPIException`, carrying the HTTP status code. -/
  | spotifyApiExc (msg : String) (status : Nat)
  /-- `TVConnectionException`. -/
  | tvConnExc (msg : String)
  /-- An `httpx.HTTPError` (either an `HTTPStatusError` from
  `raise_for_status()` or a transport-level `RequestError`). -/
  | httpError (msg : String)
  /-- Python built-in `NameError` for an unbound name. -/
  | nameError (nm : String)
  /-- A plain built-in `Exception(msg)`. -/
  | genericExc (msg : String)
  deriving DecidableEq, Repr

/-- Python `str(e)`: `DashboardException.__init__` calls
`super().__init__(message)`, so `str` returns the message. -/
def PyExc.message : PyExc → String
  | .spotifyExc m => m
  | .spotifyAuthExc m => m
  | .spotifyNotAuthExc m => m
  | .spotifyApiExc m _ => m
  | .tvConnExc m => m
  | .httpError m => m
  | .nameError n => "name \x27" ++ n ++ "\x27 is not defined"
  | .genericExc m => m

/-- Outcome of one outbound HTTP request made through the shared `httpx`
client: either a response with a status code, or a transport-level
`httpx.RequestError` (which is a subclass of `httpx.HTTPError`). -/
inductive HttpResult where
  | resp (status : Nat)
  | netError (msg : String)
  deriving DecidableEq, Repr

/-! ## TTL cache — `home_dashboard/cache.py` -/

/-- Embeds `CacheEntry`: a cached value with its absolute expiration time
(`cache.py` lines 15-24). -/
structure CacheEntry (α : Type) where
  value : α
  expires_at : ℚ
  deriving DecidableEq, Repr

/-- Embeds `CacheEntry.is_expired`: `datetime.now() >= self.expires_at`
(`cache.py` line 24); `now` is passed explicitly. -/
def CacheEntry.is_expired {α : Type} (e : CacheEntry α) (now : ℚ) : Bool :=
  now ≥ e.expires_at

/-- Embeds `SimpleCache`: the dict `self._cache`, modelled as an association list
with unique keys. -/
structure SimpleCache (α : Type) where
  entries : List (String × CacheEntry α)
  deriving DecidableEq, Repr

/-- Association-list lookup (Python dict `self._cache.get(key)`). -/
def assocLookup {α : Type} : List (String × CacheEntry α) → String →
    Option (CacheEntry α)
  | [], _ => none
  | p :: rest, key => if p.1 = key then some p.2 else assocLookup rest key

/-- Association-list deletion (Python dict `del self._cache[key]`,
a no-op when the key is absent). -/
def assocErase {α : Type} : List (String × CacheEntry α) → String →
    List (String × CacheEntry α)
  | [], _ => []
  | p :: rest, key =>
      if p.1 = key then assocErase rest key else p :: assocErase rest key

/-- Dict lookup `self._cache.get(key)`. -/
def SimpleCache.lookup {α : Type} (c : SimpleCache α) (key : String) :
    Option (CacheEntry α) :=
  assocLookup c.entries key

/-- Dict deletion `del self._cache[key]`. -/
def SimpleCache.eraseKey {α : Type} (c : SimpleCache α) (key : String) :
    SimpleCache α :=
  ⟨assocErase c.entries key⟩

/-- Embeds `SimpleCache.get` (`cache.py` lines 37-69): return the value if the
entry exists and is not expired; otherwise delete any (expired) entry and
return `None`.  Returns the read result together with the cache state
afterwards. -/
def SimpleCache.get {α : Type} (c : SimpleCache α) (key : String) (now : ℚ) :
    Option α × SimpleCache α :=
  match c.lookup key with
  | some entry =>
      if entry.is_expired now then (none, c.eraseKey key)
      else (some entry.value, c)
  | none => (none, c)

/-- Embeds `SimpleCache.set` (`cache.py` lines 71-89): overwrite the entry with
`expires_at = now + ttl_seconds`. -/
def SimpleCache.set {α : Type} (c : SimpleCache α) (key : String) (value : α)
    (ttl_seconds : ℚ) (now : ℚ) : SimpleCache α :=
  ⟨(key, ⟨value, now + ttl_seconds⟩) :: (c.eraseKey key).entries⟩

/-- Embeds `SimpleCache.clear` (`cache.py` lines 91-115): clear one key or, when
`key` is `None` — or the empty string, which is falsy in Python — the whole
cache. -/
def SimpleCache.clear {α : Type} (c : SimpleCache α) (key : Option String) :
    SimpleCache α :=
  match key with
  | some k => if k = "" then ⟨[]⟩ else c.eraseKey k
  | none => ⟨[]⟩

/-- Embeds `cached` (`cache.py` lines 134-169): try the cache first; on a miss
evaluate `fetch_func()` once and, on success, store the result.  The whole
call is modelled at the single instant `now`; `fetch_result` is the outcome
of the one evaluation of `fetch_func()`, and the returned `Nat` counts how
often `fetch_func` was invoked. -/
def cached {α ε : Type} (c : SimpleCache α) (key : String) (ttl_seconds : ℚ)
    (now : ℚ) (fetch_result : Except ε α) :
    Except ε α × SimpleCache α × Nat :=
  match c.get key now with
  | (some v, c1) => (Except.ok v, c1, 0)
  | (none, c1) =>
      match fetch_result with
      | Except.error e => (Except.error e, c1, 1)
      | Except.ok v => (Except.ok v, c1.set key v ttl_seconds now, 1)

/-! ## Auth/session state — `home_dashboard/state_managers.py` -/

/-- Embeds `SpotifyAuthManager` fields (`state_managers.py` lines 37-42). -/
structure SpotifyAuthManager where
  access_token : Option String
  token_expires_at : ℚ
  refresh_token : Option String
  deriving DecidableEq, Repr

/-- The freshly constructed manager: no token, `_token_expires_at = 0`. -/
def SpotifyAuthManager.init : SpotifyAuthManager := ⟨none, 0, none⟩

/-- Embeds `SpotifyAuthManager.get_token` (`state_managers.py` lines 57-66):
`if self._access_token and self._token_expires_at > time.time(): return
self._access_token; return None`.  The empty string is falsy in Python. -/
def SpotifyAuthManager.get_token (m : SpotifyAuthManager) (now : ℚ) :
    Option String :=
  match m.access_token with
  | some t => if t ≠ "" ∧ m.token_expires_at > now then some t else none
  | none => none

/-- Embeds `SpotifyAuthManager.set_token` (`state_managers.py` lines 68-77):
store the token with `_token_expires_at = time.time() + expires_in`. -/
def SpotifyAuthManager.set_token (m : SpotifyAuthManager) (token : String)
    (expires_in : ℚ) (now : ℚ) : SpotifyAuthManager :=
  { m with access_token := some token, token_expires_at := now + expires_in }

/-- Embeds `TVStateManager` fields (`state_managers.py` lines 105-109). -/
structure TVState where
  tv_token : Option String
  tv_client_id : Option String
  deriving DecidableEq, Repr

/-- Embeds `TVStateManager.get_tv_token` (`state_managers.py` lines 123-130). -/
def TVState.get_tv_token (m : TVState) : Option String := m.tv_token

/-- Embeds `TVStateManager.set_tv_auth` (`state_managers.py` lines 132-141). -/
def TVState.set_tv_auth (m : TVState) (token : Option String)
    (client_id : Option String) : TVState :=
  { m with tv_token := token, tv_client_id := client_id }

/-! ### Association-list lemmas for the cache -/

theorem assocLookup_assocErase_self {α : Type}
    (l : List (String × CacheEntry α)) (key : String) :
    assocLookup (assocErase l key) key = none := by
  induction l with
  | nil => rfl
  | cons p rest ih =>
      by_cases h : p.1 = key
      · simpa [assocErase, h] using ih
      · simpa [assocErase, assocLookup, h] using ih

theorem assocLookup_assocErase_ne {α : Type}
    (l : List (String × CacheEntry α)) (key k : String) (h : k ≠ key) :
    assocLookup (assocErase l key) k = assocLookup l k := by
  induction l with
  | nil => rfl
  | cons p rest ih =>
      by_cases hp : p.1 = key
      · have hk : p.1 ≠ k := by rw [hp]; exact Ne.symm h
        simpa [assocErase, assocLookup, hp, hk, Ne.symm h] using ih
      · by_cases hk : p.1 = k
        · simp [assocErase, assocLookup, hp, hk, h]
        · simpa [assocErase, assocLookup, hp, hk, h] using ih

theorem SimpleCache.lookup_eraseKey_self {α : Type} (c : SimpleCache α)
    (key : String) : (c.eraseKey key).lookup key = none :=
  assocLookup_assocErase_self c.entries key

theorem SimpleCache.lookup_eraseKey_ne {α : Type} (c : SimpleCache α)
    (key k : String) (h : k ≠ key) :
    (c.eraseKey key).lookup k = c.lookup k :=
  assocLookup_assocErase_ne c.entries key k h

theorem SimpleCache.lookup_set_self {α : Type} (c : SimpleCache α)
    (key : String) (v : α) (ttl now : ℚ) :
    (c.set key v ttl now).lookup key = some ⟨v, now + ttl⟩ := by
  simp [SimpleCache.set, SimpleCache.lookup, assocLookup]

theorem SimpleCache.lookup_set_ne {α : Type} (c : SimpleCache α)
    (key k : String) (v : α) (ttl now : ℚ) (h : k ≠ key) :
    (c.set key v ttl now).lookup k = c.lookup k := by
  simp only [SimpleCache.set, SimpleCache.lookup, assocLookup,
    if_neg (Ne.symm h)]
  exact assocLookup_assocErase_ne c.entries key k h

/-- After a read that misses, the key is absent from the store (a hit never
reaches this situation; an expired entry has just been evicted). -/
theorem SimpleCache.lookup_after_miss {α : Type} (c : SimpleCache α)
    (key : String) (now : ℚ) (h : (c.get key now).1 = none) :
    ((c.get key now).2).lookup key = none := by
  unfold SimpleCache.get at *
  cases hl : c.lookup key with
  | none => simp [hl]
  | some entry =>
      by_cases he : entry.is_expired now
      · simp [hl, he, SimpleCache.lookup_eraseKey_self]
      · simp [hl, he] at h

/-- A read never touches entries under other keys. -/
theorem SimpleCache.lookup_get_ne {α : Type} (c : SimpleCache α)
    (key k : String) (now : ℚ) (h : k ≠ key) :
    ((c.get key now).2).lookup k = c.lookup k := by
  unfold SimpleCache.get
  cases hl : c.lookup key with
  | none => simp
  | some entry =>
      by_cases he : entry.is_expired now
      · simp [he, SimpleCache.lookup_eraseKey_ne c key k h]
      · simp [he]

/-! ## Claim theorems for the cache and the Spotify auth manager -/

/-- C8: after `set(key, value, ttl_seconds)` at `t0`, the entry is
overwritten with absolute expiry `t0 + ttl_seconds`; `get(key)` returns the
value for every read strictly before the expiry instant, and at or after
the expiry instant returns absent and evicts the entry from the store. -/
theorem c8_cache_set_get_ttl {α : Type} (c : SimpleCache α) (key : String)
    (value : α) (ttl t0 t : ℚ) :
    ((c.set key value ttl t0).lookup key = some ⟨value, t0 + ttl⟩)
      ∧ (t < t0 + ttl → ((c.set key value ttl t0).get key t).1 = some value)
      ∧ (t0 + ttl ≤ t →
          ((c.set key value ttl t0).get key t).1 = none
            ∧ (((c.set key value ttl t0).get key t).2).lookup key = none) := by
  refine ⟨SimpleCache.lookup_set_self c key value ttl t0, ?_, ?_⟩
  · intro hlt
    have hexp : (CacheEntry.is_expired (⟨value, t0 + ttl⟩ : CacheEntry α) t) = false := by
      simp only [CacheEntry.is_expired, decide_eq_false_iff_not, not_le]
      exact hlt
    simp [SimpleCache.get, SimpleCache.lookup_set_self, hexp]
  · intro hle
    have hexp : (CacheEntry.is_expired (⟨value, t0 + ttl⟩ : CacheEntry α) t) = true := by
      simp only [CacheEntry.is_expired, decide_eq_true_eq]
      exact hle
    refine ⟨?_, ?_⟩ <;>
      simp [SimpleCache.get, SimpleCache.lookup_set_self, hexp,
        SimpleCache.lookup_eraseKey_self]

/-- Witness for C8, matching the spec scenario
`set(k, v, 1); sleep(1.1); get(k) == absent` and
`set(k, v, 60); get(k) == v` immediately. -/
theorem c8_cache_set_get_ttl_witness :
    ((1 : ℚ) < 0 + 60 ∧
        ((SimpleCache.set ⟨[]⟩ "k" (7 : ℕ) 60 0).get "k" 1).1 = some 7)
      ∧ ((0 : ℚ) + 1 ≤ 11/10 ∧
        ((SimpleCache.set ⟨[]⟩ "k" (7 : ℕ) 1 0).get "k" (11/10)).1 = none) :=
  ⟨⟨by norm_num, (c8_cache_set_get_ttl ⟨[]⟩ "k" 7 60 0 1).2.1 (by norm_num)⟩,
   ⟨by norm_num,
    ((c8_cache_set_get_ttl ⟨[]⟩ "k" 7 1 0 (11/10)).2.2 (by norm_num)).1⟩⟩

/-- C7: on a cache miss in `cached`, an error of `fetch_func` propagates
unchanged, nothing is stored for the key (the key is absent afterwards)
and every other key is untouched; a successful fetch is invoked exactly
once, stored under the key with the given TTL, and returned. -/
theorem c7_cached_miss_behaviour {α ε : Type} (c : SimpleCache α)
    (key : String) (ttl now : ℚ) (e : ε) (v : α)
    (hmiss : (c.get key now).1 = none) :
    (cached c key ttl now (Except.error e) =
        (Except.error e, (c.get key now).2, 1)
      ∧ ((cached c key ttl now (Except.error e)).2.1).lookup key = none
      ∧ ∀ k : String, k ≠ key →
          ((cached c key ttl now (Except.error e)).2.1).lookup k = c.lookup k)
    ∧ cached c key ttl now (Except.ok v : Except ε α) =
        (Except.ok v, ((c.get key now).2).set key v ttl now, 1) := by
  have hget : c.get key now = (none, (c.get key now).2) := by
    rw [← hmiss]
  refine ⟨⟨?_, ?_, ?_⟩, ?_⟩
  · rw [cached, hget]
  · rw [cached, hget]
    exact SimpleCache.lookup_after_miss c key now hmiss
  · intro k hk
    rw [cached, hget]
    exact SimpleCache.lookup_get_ne c key k now hk
  · rw [cached, hget]

/-- Witness for C7 on the empty cache (a genuine miss): an error value is
propagated and nothing is cached; a successful fetch is stored. -/
theorem c7_cached_miss_behaviour_witness :
    ((SimpleCache.get (α := ℕ) ⟨[]⟩ "status" 0).1 = none)
      ∧ cached (α := ℕ) (ε := String) ⟨[]⟩ "status" 5 0 (Except.error "boom") =
          (Except.error "boom", ⟨[]⟩, 1)
      ∧ cached (α := ℕ) (ε := String) ⟨[]⟩ "status" 5 0 (Except.ok 3) =
          (Except.ok 3, SimpleCache.set ⟨[]⟩ "status" 3 5 0, 1) :=
  ⟨rfl,
   (c7_cached_miss_behaviour ⟨[]⟩ "status" 5 0 "boom" 3 rfl).1.1,
   (c7_cached_miss_behaviour ⟨[]⟩ "status" 5 0 "boom" 3 rfl).2⟩

/-- C1 counterexample: `SpotifyAuthManager.get_token` applies no safety
margin at all.  After `set_token("T", expires_in=30)` at time 0, a read at
time 29 returns the token (the claim says it must already be absent), and
after `set_token("T", expires_in=3600)` a read at time 3599.5 also returns
the token (the claim says absent). -/
theorem c1_counterexample :
    ((SpotifyAuthManager.init.set_token "T" 30 0).get_token 29 = some "T")
      ∧ ((SpotifyAuthManager.init.set_token "T" 3600 0).get_token (7199/2)
          = some "T") := by
  refine ⟨?_, ?_⟩ <;>
    norm_num [SpotifyAuthManager.init, SpotifyAuthManager.set_token,
      SpotifyAuthManager.get_token] <;>
    decide

/-- C1 amended: a stored (non-empty) token is returned by `get_token`
exactly while `now` is strictly before the absolute expiry
`t0 + expires_in`; there is no safety margin. -/
theorem c1_get_token_no_margin (m : SpotifyAuthManager) (token : String)
    (expires_in t0 t : ℚ) (htok : token ≠ "") :
    (m.set_token token expires_in t0).get_token t = some token ↔
      t < t0 + expires_in := by
  by_cases hlt : t < t0 + expires_in
  · simp [SpotifyAuthManager.set_token, SpotifyAuthManager.get_token, htok, hlt]
  · simp [SpotifyAuthManager.set_token, SpotifyAuthManager.get_token, htok, hlt,
      not_lt.mp hlt]

/-- Witness for the amended C1: the token set for 3600 s is still returned
1 s after it was stored. -/
theorem c1_get_token_no_margin_witness :
    ("T" : String) ≠ "" ∧
      ((SpotifyAuthManager.init.set_token "T" 3600 0).get_token 1 = some "T") :=
  ⟨by decide,
   (c1_get_token_no_margin SpotifyAuthManager.init "T" 3600 0 1
      (by decide)).mpr (by norm_num)⟩

/-! ## Spotify service — `home_dashboard/services/spotify_service.py`

Each transport command is embedded as a function of the outcome of
`_get_access_token` (`tokenRes`), the outcome of the one outbound HTTP
request (`upstream`), and the current cache state.  It returns the result
together with the cache state afterwards.  In the source, only
`httpx.HTTPError` is caught and translated to `SpotifyAPIException`
(carrying `e.response.status_code` when present, 502 otherwise); token
errors are dashboard exceptions and propagate unchanged.  The interpolated
`str(e)` suffix of the messages is elided in the embedding. -/

/-- The cache key invalidated by the mutating commands. -/
def spotify_current_track_key : String := "spotify:current_track"

/-- Embeds `play` (`spotify_service.py` lines 266-318): PUT
`/me/player/play`, then on success clear the cached playback state. -/
def play {α : Type} (tokenRes : Except PyExc String) (upstream : HttpResult)
    (c : SimpleCache α) : Except PyExc Unit × SimpleCache α :=
  match tokenRes with
  | .error e => (.error e, c)
  | .ok _ =>
      match upstream with
      | .netError _ => (.error (.spotifyApiExc "Failed to start playback" 502), c)
      | .resp status =>
          if 400 ≤ status then
            (.error (.spotifyApiExc "Failed to start playback" status), c)
          else (.ok (), c.clear (some spotify_current_track_key))

/-- Embeds `pause` (`spotify_service.py` lines 321-373): PUT
`/me/player/pause`, then on success clear the cached playback state. -/
def pause {α : Type} (tokenRes : Except PyExc String) (upstream : HttpResult)
    (c : SimpleCache α) : Except PyExc Unit × SimpleCache α :=
  match tokenRes with
  | .error e => (.error e, c)
  | .ok _ =>
      match upstream with
      | .netError _ => (.error (.spotifyApiExc "Failed to pause playback" 502), c)
      | .resp status =>
          if 400 ≤ status then
            (.error (.spotifyApiExc "Failed to pause playback" status), c)
          else (.ok (), c.clear (some spotify_current_track_key))

/-- Embeds `next_track` (`spotify_service.py` lines 376-430): POST
`/me/player/next`, then on success clear the cached playback state. -/
def next_track {α : Type} (tokenRes : Except PyExc String)
    (upstream : HttpResult) (c : SimpleCache α) :
    Except PyExc Unit × SimpleCache α :=
  match tokenRes with
  | .error e => (.error e, c)
  | .ok _ =>
      match upstream with
      | .netError _ => (.error (.spotifyApiExc "Failed to skip to next track" 502), c)
      | .resp status =>
          if 400 ≤ status then
            (.error (.spotifyApiExc "Failed to skip to next track" status), c)
          else (.ok (), c.clear (some spotify_current_track_key))

/-- Embeds `previous_track` (`spotify_service.py` lines 433-487): POST
`/me/player/previous`, then on success clear the cached playback state. -/
def previous_track {α : Type} (tokenRes : Except PyExc String)
    (upstream : HttpResult) (c : SimpleCache α) :
    Except PyExc Unit × SimpleCache α :=
  match tokenRes with
  | .error e => (.error e, c)
  | .ok _ =>
      match upstream with
      | .netError _ => (.error (.spotifyApiExc "Failed to skip to previous track" 502), c)
      | .resp status =>
          if 400 ≤ status then
            (.error (.spotifyApiExc "Failed to skip to previous track" status), c)
          else (.ok (), c.clear (some spotify_current_track_key))

/-- Embeds `transfer_playback_to_device` (`spotify_service.py` lines 578-657):
PUT `/me/player`, then on success clear the cached playback state. -/
def transfer_playback_to_device {α : Type} (tokenRes : Except PyExc String)
    (upstream : HttpResult) (c : SimpleCache α) :
    Except PyExc Unit × SimpleCache α :=
  match tokenRes with
  | .error e => (.error e, c)
  | .ok _ =>
      match upstream with
      | .netError _ => (.error (.spotifyApiExc "Failed to transfer playback" 502), c)
      | .resp status =>
          if 400 ≤ status then
            (.error (.spotifyApiExc "Failed to transfer playback" status), c)
          else (.ok (), c.clear (some spotify_current_track_key))

/-- Embeds `play_playlist` (`spotify_service.py` lines 542-575): PUT
`/me/player/play` with a context URI.  Note: this function performs NO
cache invalidation — it returns with the cache untouched even on
success. -/
def play_playlist {α : Type} (tokenRes : Except PyExc String)
    (upstream : HttpResult) (c : SimpleCache α) :
    Except PyExc Unit × SimpleCache α :=
  match tokenRes with
  | .error e => (.error e, c)
  | .ok _ =>
      match upstream with
      | .netError _ => (.error (.spotifyApiExc "Failed to play playlist" 502), c)
      | .resp status =>
          if 400 ≤ status then
            (.error (.spotifyApiExc "Failed to play playlist" status), c)
          else (.ok (), c)

/-- Embeds `play_playlist_on_device` (`spotify_service.py` lines 660-745): PUT
`/me/player/play` pinned to a device, then on success clear the cached
playback state. -/
def play_playlist_on_device {α : Type} (tokenRes : Except PyExc String)
    (upstream : HttpResult) (c : SimpleCache α) :
    Except PyExc Unit × SimpleCache α :=
  match tokenRes with
  | .error e => (.error e, c)
  | .ok _ =>
      match upstream with
      | .netError _ => (.error (.spotifyApiExc "Failed to play playlist on device" 502), c)
      | .resp status =>
          if 400 ≤ status then
            (.error (.spotifyApiExc "Failed to play playlist on device" status), c)
          else (.ok (), c.clear (some spotify_current_track_key))

/-! ### Orchestration workflows -/

/-- Embeds `wake_tv_and_play` (`spotify_service.py` lines 490-539): wake the TV,
then transfer playback to the TV device.  The whole body is wrapped in
`except Exception as e: raise SpotifyException(f"Failed to wake TV and
play: {str(e)}") from e`, so every failure — including the TV wake step's
`TVConnectionException` — reaches the caller as a plain
`SpotifyException`.  The returned `Bool` records whether the transfer PUT
was attempted. -/
def wake_tv_and_play (wakeRes : Except PyExc String)
    (tokenRes : Except PyExc String) (transferResp : HttpResult) :
    Except PyExc String × Bool :=
  let body : Except PyExc String × Bool :=
    match wakeRes with
    | .error e => (.error e, false)
    | .ok _ =>
        match tokenRes with
        | .error e => (.error e, false)
        | .ok _ =>
            match transferResp with
            | .netError msg => (.error (.httpError msg), true)
            | .resp status =>
                if 400 ≤ status then (.error (.httpError "HTTPStatusError"), true)
                else (.ok "TV woken and playback transferred", true)
  match body with
  | (.ok s, att) => (.ok s, att)
  | (.error e, att) =>
      (.error (.spotifyExc ("Failed to wake TV and play: " ++ e.message)), att)

/-- In `spotify_service.py` the name `asyncio` is never imported, so each
`await asyncio.sleep(...)` statement in
`wake_tv_launch_spotify_and_play_playlist` raises `NameError` when
reached. -/
def asyncio_sleep_outcome : Except PyExc Unit := .error (.nameError "asyncio")

/-- Embeds `wake_tv_launch_spotify_and_play_playlist` (`spotify_service.py` lines
748-841): wake the TV, sleep 2 s, launch the Spotify app, sleep 3 s,
transfer + play the playlist.  The handler `except Exception as e:` logs
and bare-`raise`s, so every exception reaches the caller unchanged.  The
two returned `Bool`s record whether the app-launch step and the play step
were attempted. -/
def wake_tv_launch_spotify_and_play_playlist (wakeRes : Except PyExc String)
    (launchRes : Except PyExc Unit) (playRes : Except PyExc Unit)
    (playlist_uri : String) : Except PyExc String × Bool × Bool :=
  match wakeRes with
  | .error e => (.error e, false, false)
  | .ok _ =>
      match asyncio_sleep_outcome with
      | .error e => (.error e, false, false)
      | .ok _ =>
          match launchRes with
          | .error e => (.error e, true, false)
          | .ok _ =>
              match asyncio_sleep_outcome with
              | .error e => (.error e, true, false)
              | .ok _ =>
                  match playRes with
                  | .error e => (.error e, true, true)
                  | .ok _ =>
                      (.ok ("TV woken, Spotify launched, and playlist started: "
                        ++ playlist_uri), true, true)

/-- After `clear(key)` with a non-empty key, a `get` of that key is
absent. -/
theorem SimpleCache.clear_some_get_none {α : Type} (c : SimpleCache α)
    (k : String) (hk : k ≠ "") (now : ℚ) :
    ((c.clear (some k)).get k now).1 = none := by
  simp [SimpleCache.clear, hk, SimpleCache.get,
    SimpleCache.lookup_eraseKey_self]

/-- The six mutating commands that invalidate the cached playback state on
success. -/
def clearing_commands {α : Type} :
    List (Except PyExc String → HttpResult → SimpleCache α →
      Except PyExc Unit × SimpleCache α) :=
  [play, pause, next_track, previous_track, transfer_playback_to_device,
    play_playlist_on_device]

/-- C6 amended: `play`, `pause`, `next_track`, `previous_track`,
`transfer_playback_to_device` and `play_playlist_on_device` clear the
cached entry under `"spotify:current_track"` on upstream success (so an
immediately following `get` of that key is absent), and on upstream
failure (HTTP error status, transport error, or a token-acquisition error,
which propagates unchanged) they raise and leave the cache untouched;
`play_playlist`, however, returns success with the cache untouched. -/
theorem c6_transport_cache_invalidation {α : Type} (t msg : String)
    (sOk sF : Nat) (c : SimpleCache α) (e : PyExc) (u : HttpResult) (now : ℚ)
    (hOk : sOk < 400) (hF : 400 ≤ sF) :
    (∀ F ∈ clearing_commands (α := α),
      (F (.ok t) (.resp sOk) c
          = (.ok (), c.clear (some spotify_current_track_key))
        ∧ ((F (.ok t) (.resp sOk) c).2.get spotify_current_track_key now).1
            = none)
      ∧ ((F (.ok t) (.resp sF) c).2 = c
        ∧ (F (.ok t) (.resp sF) c).1 ≠ .ok ())
      ∧ ((F (.ok t) (.netError msg) c).2 = c
        ∧ (F (.ok t) (.netError msg) c).1 ≠ .ok ())
      ∧ F (.error e) u c = (.error e, c))
      ∧ play_playlist (.ok t) (.resp sOk) c = (.ok (), c) := by
  have hOk' : ¬ 400 ≤ sOk := Nat.not_le.mpr hOk
  have hkey : spotify_current_track_key ≠ "" := by decide
  constructor
  · intro F hmem
    fin_cases hmem <;>
      refine ⟨⟨?_, ?_⟩, ⟨?_, ?_⟩, ⟨?_, ?_⟩, ?_⟩ <;>
      simp [play, pause, next_track, previous_track,
        transfer_playback_to_device, play_playlist_on_device, hOk', hF,
        SimpleCache.clear_some_get_none _ _ hkey now]
  · simp [play_playlist, hOk']

/-- Witness for C6 amended: `play` on a populated cache with a 204
response clears the playback-state entry. -/
theorem c6_transport_cache_invalidation_witness :
    (204 : Nat) < 400 ∧ (400 : Nat) ≤ 404 ∧
      (play (α := ℕ) (.ok "tok") (.resp 204)
          ⟨[("spotify:current_track", ⟨42, 100⟩)]⟩
        = (.ok (), SimpleCache.clear ⟨[("spotify:current_track", ⟨42, 100⟩)]⟩
            (some spotify_current_track_key))) :=
  ⟨by norm_num, by norm_num,
   (((c6_transport_cache_invalidation "tok" "m" 204 404
        ⟨[("spotify:current_track", ⟨42, 100⟩)]⟩ (.genericExc "x")
        (.resp 204) 0 (by norm_num) (by norm_num)).1 play
      (by unfold clearing_commands; exact List.mem_cons_self _ _)).1).1⟩

/-- C6 counterexample: `play_playlist` is a mutating playlist command
whose upstream call succeeds, yet the cached `"spotify:current_track"`
entry is NOT removed — an immediately following cache `get` still returns
the old value instead of being absent. -/
theorem c6_counterexample :
    (play_playlist (α := ℕ) (.ok "tok") (.resp 204)
        ⟨[("spotify:current_track", ⟨42, 100⟩)]⟩).1 = .ok ()
      ∧ ((play_playlist (α := ℕ) (.ok "tok") (.resp 204)
          ⟨[("spotify:current_track", ⟨42, 100⟩)]⟩).2.get
            "spotify:current_track" 0).1 = some 42 := by
  constructor
  · rfl
  · simp [play_playlist, SimpleCache.get, SimpleCache.lookup, assocLookup,
      CacheEntry.is_expired]
    norm_num

/-- C2 counterexample: when the TV wake step inside `wake_tv_and_play`
fails with a `TVConnectionException`, the caller receives a plain
`SpotifyException` wrapper, not the step's own typed error. -/
theorem c2_counterexample :
    (wake_tv_and_play (.error (.tvConnExc "TV connection failed"))
        (.ok "tok") (.resp 204)).1
      = .error (.spotifyExc "Failed to wake TV and play: TV connection failed")
      ∧ PyExc.spotifyExc "Failed to wake TV and play: TV connection failed"
          ≠ PyExc.tvConnExc "TV connection failed" := by
  constructor
  · rfl
  · intro h
    cases h

/-- C2 amended: both workflows abort the remaining steps on the first
failure; `wake_tv_launch_spotify_and_play_playlist` surfaces the failing
step's exception to the caller unchanged, while `wake_tv_and_play` wraps
it in a plain `SpotifyException` whose message embeds the original
error's message (the original is the `__cause__` in the source). -/
theorem c2_workflow_error_propagation (e : PyExc)
    (tokenRes : Except PyExc String) (resp : HttpResult)
    (launchRes playRes : Except PyExc Unit) (uri : String) :
    wake_tv_launch_spotify_and_play_playlist (.error e) launchRes playRes uri
        = (.error e, false, false)
      ∧ wake_tv_and_play (.error e) tokenRes resp
        = (.error (.spotifyExc ("Failed to wake TV and play: "
            ++ e.message)), false) := by
  constructor
  · rfl
  · rfl

/-! ## TV Tizen service — `home_dashboard/services/tv_tizen_service.py` -/

/-- The only field of the TV device descriptor that the wake logic reads
(`models/base_models.py`). -/
structure TVDevice where
  PowerState : String
  deriving DecidableEq, Repr

/-- Embeds `TVInfo`, reduced to the device descriptor used by `wake`. -/
structure TVInfo where
  device : TVDevice
  deriving DecidableEq, Repr

/-- Python `str.lower()`, modelled character-wise (every observed
`PowerState` value is ASCII). -/
def pyLower (s : String) : String := ⟨s.data.map Char.toLower⟩

/-- Embeds `TVInfo.power_state` (`models/base_models.py` lines 81-88):
`self.device.PowerState.lower()`. -/
def TVInfo.power_state (i : TVInfo) : String := pyLower i.device.PowerState

/-- A JSON frame received on the TV control WebSocket, reduced to the
fields the client reads: `event`, `data.token`, `data.id` and
`data.clients[0].id`. -/
structure TVFrame where
  event : Option String
  dataToken : Option String
  dataId : Option String
  dataClientsHeadId : Option String
  deriving DecidableEq, Repr

/-- The authorization wait loop of `_send_key` (`tv_tizen_service.py`
lines 124-159): receive frames until an `ms.channel.connect` event
arrives — then, when a manager is present and the frame carries a truthy
token, persist it via `set_tv_auth(token, id)` — keep waiting on
`ms.channel.unauthorized` and on any other event, and give up when the
frames run out (the 30 s timeout).  Returns whether authorization arrived
together with the manager state afterwards. -/
def send_key_wait_auth (tvm : Option TVState) :
    List TVFrame → Bool × Option TVState
  | [] => (false, tvm)
  | f :: rest =>
      if f.event = some "ms.channel.connect" then
        match tvm with
        | some m =>
            match f.dataToken with
            | some tok =>
                if tok ≠ "" then
                  (true, some (m.set_tv_auth (some tok) f.dataId))
                else (true, some m)
            | none => (true, some m)
        | none => (true, none)
      else send_key_wait_auth tvm rest

instance {ε α : Type} [DecidableEq ε] [DecidableEq α] :
    DecidableEq (Except ε α) := fun a b =>
  match a, b with
  | .ok x, .ok y =>
      if h : x = y then isTrue (by rw [h]) else isFalse (by simp [h])
  | .error x, .error y =>
      if h : x = y then isTrue (by rw [h]) else isFalse (by simp [h])
  | .ok _, .error _ => isFalse (by simp)
  | .error _, .ok _ => isFalse (by simp)

/-- The observable effects of one `_send_key` call. -/
structure SendKeyRun where
  url_token : Option String
  sent_keys : List String
  outcome : Except PyExc Unit
  tvm : Option TVState
  deriving DecidableEq, Repr

/-- Embeds `_send_key` (`tv_tizen_service.py` lines 76-204): read the stored
token (with `await`), append it to the WebSocket URL when truthy, connect
and handshake (`connect` is that step's outcome), run the authorization
wait loop, then send the key command.  Any exception — including the
inner authorization-timeout `TVConnectionException` — is re-wrapped by
the outer handler as `TVConnectionException(f"Failed to send key {key} to
TV: {e}")`. -/
def send_key (key : String) (tvm : Option TVState)
    (connect : Except PyExc Unit) (frames : List TVFrame) : SendKeyRun :=
  let token : Option String := match tvm with
    | some m => m.get_tv_token
    | none => none
  let url_token : Option String := match token with
    | some t => if t ≠ "" then some t else none
    | none => none
  match connect with
  | .error e =>
      ⟨url_token, [],
        .error (.tvConnExc ("Failed to send key " ++ key ++ " to TV: "
          ++ e.message)), tvm⟩
  | .ok _ =>
      match send_key_wait_auth tvm frames with
      | (true, tvm1) => ⟨url_token, [key], .ok (), tvm1⟩
      | (false, tvm1) =>
          ⟨url_token, [],
            .error (.tvConnExc ("Failed to send key " ++ key ++ " to TV: "
              ++ "TV connection not authorized - please allow access on TV")),
            tvm1⟩

/-- Python truthiness of the value bound to `token` in `launch_app`:
`None`, a string, or — because line 230 calls
`tv_manager.get_tv_token()` without `await` — a coroutine object, which
is always truthy. -/
inductive PyTokenVal where
  | noneVal
  | strVal (s : String)
  | coroutineVal
  deriving DecidableEq, Repr

def PyTokenVal.truthy : PyTokenVal → Bool
  | .noneVal => false
  | .strVal s => !(s == "")
  | .coroutineVal => true

/-- The observable effects of one `launch_app` call. -/
structure LaunchAppRun where
  url_token : PyTokenVal
  launched : Bool
  outcome : Except PyExc Unit
  tvm : Option TVState
  deriving DecidableEq, Repr

/-- Embeds `launch_app` (`tv_tizen_service.py` lines 207-289), embedded with its
source bugs kept faithfully: line 230 reads `token =
tv_manager.get_tv_token() if tv_manager else None` WITHOUT `await`, so
with a manager present `token` is a truthy coroutine object (which is
what gets interpolated into the WebSocket URL); consequently the
extraction guard `if not token and auth_data.get("data", {}).get("token")`
on line 249 can only succeed when `tv_manager` is `None` — and then the
`if tv_manager:` guard on line 252 is false — and line 253 calls
`set_tv_auth` without `await` anyway, so on no path is a token ever
persisted: the manager state is returned unchanged. -/
def launch_app (app_id : String) (tvm : Option TVState)
    (connect : Except PyExc Unit) (firstFrame : Option TVFrame) :
    LaunchAppRun :=
  let token : PyTokenVal := match tvm with
    | some _ => .coroutineVal
    | none => .noneVal
  match connect with
  | .error e =>
      ⟨token, false,
        .error (.tvConnExc ("Failed to launch app " ++ app_id ++ ": "
          ++ e.message)), tvm⟩
  | .ok _ =>
      match firstFrame with
      | none =>
          ⟨token, false,
            .error (.tvConnExc ("Failed to launch app " ++ app_id ++ ": "
              ++ "connection closed")), tvm⟩
      | some _ => ⟨token, true, .ok (), tvm⟩

/-- The observable effects of one `wake` call of the
`home_dashboard` variant. -/
structure WakeRun where
  sent_keys : List String
  outcome : Except PyExc String
  deriving DecidableEq, Repr

/-- Embeds `wake` (`tv_tizen_service.py` lines 292-345): query the power state
via `get_info` (whose failure is a `TVConnectionException`, re-raised
unchanged by `except TVConnectionException: raise`); send `KEY_POWER`
only when the lowercased state is `"standby"` or unknown; when it is
`"on"`, send nothing and return the distinct already-on message.
`sendRes` is the outcome of the `_send_key("KEY_POWER", ...)` call.
There is no retry loop: at most one key frame is ever sent per call. -/
def wake (infoRes : Except PyExc TVInfo) (sendRes : Except PyExc Unit) :
    WakeRun :=
  match infoRes with
  | .error e => ⟨[], .error e⟩
  | .ok info =>
      if info.power_state = "standby" then
        match sendRes with
        | .error e => ⟨["KEY_POWER"], .error e⟩
        | .ok _ => ⟨["KEY_POWER"], .ok "TV was in standby, sent KEY_POWER"⟩
      else if info.power_state = "on" then ⟨[], .ok "TV is already on"⟩
      else
        match sendRes with
        | .error e => ⟨["KEY_POWER"], .error e⟩
        | .ok _ =>
            ⟨["KEY_POWER"], .ok ("TV power state unknown ("
              ++ info.power_state ++ "), sent KEY_POWER")⟩

/-- Embeds `wake` of the superseded variant
`api_app/api_app/services/tv_tizen_service.py` (lines 13-79): a single
connect+handshake+key sequence with NO retry loop and no backoff; on any
failure the module-level `_wake_failure_count` is incremented (once) and
a plain generic `Exception(f"Tizen wake error: {e}")` is raised — not a
typed `TVConnectionException`; on success the counter is reset to 0.
`conn` is the outcome of the connect+handshake+send sequence; the
returned components are the result, the counter afterwards, and the
number of connection attempts made. -/
def api_app_wake (conn : Except PyExc Unit) (wake_failure_count : ℕ) :
    Except PyExc String × ℕ × ℕ :=
  match conn with
  | .ok _ => (.ok "KEY_POWER sent to TV", 0, 1)
  | .error e =>
      (.error (.genericExc ("Tizen wake error: " ++ e.message)),
        wake_failure_count + 1, 1)

/-- C9: when the power-state query reports `"on"`, `wake` sends no
`KEY_POWER` frame (zero key sends) and returns the distinct already-on
status string; when it reports `"standby"` or any other value, exactly
the `KEY_POWER` frame is sent. -/
theorem c9_wake_already_on (info infoB : TVInfo)
    (sendRes : Except PyExc Unit) (hA : info.power_state = "on")
    (hB : infoB.power_state ≠ "on") :
    wake (.ok info) sendRes = ⟨[], .ok "TV is already on"⟩
      ∧ (wake (.ok infoB) sendRes).sent_keys = ["KEY_POWER"]
      ∧ "TV is already on" ≠ "TV was in standby, sent KEY_POWER" := by
  refine ⟨?_, ?_, by decide⟩
  · have hA2 : info.power_state ≠ "standby" := by rw [hA]; decide
    simp [wake, hA, hA2]
  · by_cases hs : infoB.power_state = "standby"
    · cases sendRes <;> simp [wake, hs]
    · cases sendRes <;> simp [wake, hs, hB]

/-- Witness for C9: a TV reporting `PowerState = "on"` gets no key;
one reporting `"standby"` gets `KEY_POWER`. -/
theorem c9_wake_already_on_witness :
    (TVInfo.power_state ⟨⟨"On"⟩⟩ = "on")
      ∧ wake (.ok ⟨⟨"On"⟩⟩) (.ok ()) = ⟨[], .ok "TV is already on"⟩
      ∧ (wake (.ok ⟨⟨"standby"⟩⟩) (.ok ())).sent_keys = ["KEY_POWER"] :=
  ⟨by decide,
   (c9_wake_already_on ⟨⟨"On"⟩⟩ ⟨⟨"standby"⟩⟩ (.ok ()) (by decide)
      (by decide)).1,
   (c9_wake_already_on ⟨⟨"On"⟩⟩ ⟨⟨"standby"⟩⟩ (.ok ()) (by decide)
      (by decide)).2.1⟩

/-- C3 (code evaluation): neither `wake` in the repository retries.  In
the `api_app` variant a run in which the connection fails makes exactly 1
connection attempt — not `max_retries + 1 = 4` (nor 3) — increments the
wake-failure counter by exactly one, and raises a plain generic
`Exception`, not a typed `TVConnectionException`; a successful run resets
the counter to 0.  The `home_dashboard` variant sends at most one key
frame per call and never touches any counter. -/
theorem c3_wake_no_retry (e : PyExc) (n : ℕ) :
    api_app_wake (.error e) n
        = (.error (.genericExc ("Tizen wake error: " ++ e.message)), n + 1, 1)
      ∧ api_app_wake (.ok ()) n = (.ok "KEY_POWER sent to TV", 0, 1)
      ∧ (∀ msg : String,
          PyExc.genericExc ("Tizen wake error: " ++ e.message) ≠ .tvConnExc msg)
      ∧ ∀ (infoRes : Except PyExc TVInfo) (sendRes : Except PyExc Unit),
          (wake infoRes sendRes).sent_keys.length ≤ 1 := by
  refine ⟨rfl, rfl, fun msg h => PyExc.noConfusion h, ?_⟩
  intro infoRes sendRes
  rcases infoRes with e1 | info
  · simp [wake]
  · by_cases hs : info.power_state = "standby"
    · cases sendRes <;> simp [wake, hs]
    · by_cases ho : info.power_state = "on"
      · simp [wake, hs, ho]
      · cases sendRes <;> simp [wake, hs, ho]

/-- C5 (code evaluation): `_send_key` really does extract and persist the
token carried by the handshake response and reuses a stored token in the
WebSocket URL — but `launch_app` never persists anything (the manager
state is returned unchanged even when the response carries a fresh
token), and with a manager present it interpolates an unawaited coroutine
object into the URL instead of the stored token. -/
theorem c5_token_persistence_divergence :
    (send_key "KEY_POWER" (some ⟨none, none⟩) (.ok ())
        [⟨some "ms.channel.connect", some "newtok", some "cid", some "cid"⟩]).tvm
      = some ⟨some "newtok", some "cid"⟩
      ∧ (send_key "KEY_VOLUP" (some ⟨some "stored", some "cid"⟩) (.ok ())
          [⟨some "ms.channel.connect", none, none, none⟩]).url_token
        = some "stored"
      ∧ (launch_app "3201606009684" (some ⟨none, none⟩) (.ok ())
          (some ⟨some "ms.channel.connect", some "newtok", some "cid",
            some "cid"⟩)).tvm = some ⟨none, none⟩
      ∧ (launch_app "3201606009684" (some ⟨none, none⟩) (.ok ())
          (some ⟨some "ms.channel.connect", some "newtok", some "cid",
            some "cid"⟩)).url_token = .coroutineVal := by
  refine ⟨?_, ?_, rfl, rfl⟩ <;> rfl

/-! ## OAuth pending state — `home_dashboard/routers/spotify_router.py` -/

/-- Embeds `OAUTH_STATE_TTL_SECONDS = 600` (`spotify_router.py` line 35). -/
def OAUTH_STATE_TTL_SECONDS : ℚ := 600

/-- The module-level dict `_oauth_states: dict[str, float]` mapping a
state token to its creation timestamp. -/
structure OAuthStates where
  states : List (String × ℚ)
  deriving DecidableEq, Repr

/-- Python `state in _oauth_states`. -/
def OAuthStates.hasState (s : OAuthStates) (st : String) : Bool :=
  s.states.any (fun p => p.1 == st)

/-- Python `_oauth_states.pop(state, None)`. -/
def OAuthStates.popState (s : OAuthStates) (st : String) : OAuthStates :=
  ⟨s.states.filter (fun p => !(p.1 == st))⟩

/-- Embeds `_cleanup_expired_oauth_states` (`spotify_router.py` lines 47-54):
remove every entry with `current_time - timestamp > OAUTH_STATE_TTL_SECONDS`. -/
def cleanup_expired_oauth_states (s : OAuthStates) (now : ℚ) : OAuthStates :=
  ⟨s.states.filter (fun p => !(decide (now - p.2 > OAUTH_STATE_TTL_SECONDS)))⟩

/-- Embeds `auth_login` (`spotify_router.py` lines 407-428), reduced to its
effect on the pending-state dict: sweep the expired entries, then insert
the freshly generated state with the current timestamp. -/
def auth_login (s : OAuthStates) (state : String) (now : ℚ) : OAuthStates :=
  let s1 := cleanup_expired_oauth_states s now
  ⟨(state, now) :: s1.states.filter (fun p => !(p.1 == state))⟩

/-- The state-verification prefix of `auth_callback` (`spotify_router.py`
lines 441-450): `if not state or state not in _oauth_states:` reject
(HTTP 400), else consume the state with `pop` and proceed.  Note that the
callback never reads the clock and never sweeps: any state still present
in the dict is accepted regardless of its age.  Returns whether the state
was accepted, with the dict afterwards. -/
def auth_callback_verify (s : OAuthStates) (state : Option String) :
    Bool × OAuthStates :=
  match state with
  | none => (false, s)
  | some st =>
      if st = "" then (false, s)
      else if s.hasState st then (true, s.popState st)
      else (false, s)

theorem hasState_filter_erased (l : List (String × ℚ)) (st : String)
    (q : String × ℚ → Bool) :
    ((l.filter (fun p => !(p.1 == st))).filter q).any (fun p => p.1 == st)
      = false := by
  induction l with
  | nil => rfl
  | cons p rest ih =>
      by_cases h : p.1 == st
      · simp only [List.filter_cons, h, Bool.not_true, if_neg]
        exact ih
      · by_cases hq : q p
        · simp [List.filter_cons, h, hq]
        · simp [List.filter_cons, h, hq]

theorem hasState_erased (l : List (String × ℚ)) (st : String) :
    (l.filter (fun p => !(p.1 == st))).any (fun p => p.1 == st) = false := by
  induction l with
  | nil => rfl
  | cons p rest ih =>
      by_cases h : p.1 == st
      · simp only [List.filter_cons, h, Bool.not_true, if_neg]
        exact ih
      · simp [List.filter_cons, h]

/-- C4 counterexample: a pending state inserted by `auth_login` at
`t0 = 0` and presented to the callback — with no intervening login
attempt — is ACCEPTED no matter how much later the callback runs (in
particular at `t0 + 601 s`), because `auth_callback` performs no age
check at all: the embedded verification does not even take a clock.  The
claim says the callback must reject it as expired at `t0 + 601 s`. -/
theorem c4_counterexample :
    (auth_callback_verify (auth_login ⟨[]⟩ "S" 0) (some "S")).1 = true := by
  rfl

/-- C4 amended: expiry of a pending state is enforced only by the lazy
sweep that runs on the next `auth_login`: after a sweep at time `t` the
state inserted at `t0` is kept exactly while `t - t0 ≤ 600` (so it is
gone at `t0 + 601` and still present at `t0 + 599`); the callback accepts
exactly the states present in the dict — regardless of age — and consumes
an accepted state, so a second presentation is rejected. -/
theorem c4_oauth_state_lazy_sweep (s : OAuthStates) (st : String) (t0 t : ℚ)
    (hst : st ≠ "") :
    ((cleanup_expired_oauth_states (auth_login s st t0) t).hasState st
        = !(decide (t - t0 > OAUTH_STATE_TTL_SECONDS)))
      ∧ (∀ s1 : OAuthStates,
          (auth_callback_verify s1 (some st)).1 = s1.hasState st)
      ∧ ∀ s1 : OAuthStates, s1.hasState st = true →
          ((auth_callback_verify s1 (some st)).2.hasState st = false
            ∧ (auth_callback_verify
                ((auth_callback_verify s1 (some st)).2) (some st)).1 = false) := by
  refine ⟨?_, ?_, ?_⟩
  · by_cases h : t - t0 > OAUTH_STATE_TTL_SECONDS
    · simp [cleanup_expired_oauth_states, auth_login, OAuthStates.hasState,
        List.filter_cons, h, hasState_filter_erased]
      exact fun a b _ _ hne _ => hne
    · simp [cleanup_expired_oauth_states, auth_login, OAuthStates.hasState,
        List.filter_cons, h]
  · intro s1
    by_cases h : s1.hasState st
    · simp [auth_callback_verify, hst, h]
    · simp [auth_callback_verify, hst, h]
  · intro s1 h
    have hpop : (OAuthStates.popState s1 st).hasState st = false :=
      hasState_erased s1.states st
    constructor
    · simp [auth_callback_verify, hst, h, hpop]
    · simp [auth_callback_verify, hst, h, hpop]

/-- Witness for the amended C4: a state inserted at `t0 = 0` survives a
sweep at `t = 599` but not one at `t = 601`, and an accepted state cannot
be presented twice. -/
theorem c4_oauth_state_lazy_sweep_witness :
    ("S" : String) ≠ ""
      ∧ (cleanup_expired_oauth_states (auth_login ⟨[]⟩ "S" 0) 599).hasState "S"
          = true
      ∧ (cleanup_expired_oauth_states (auth_login ⟨[]⟩ "S" 0) 601).hasState "S"
          = false
      ∧ (auth_callback_verify
          ((auth_callback_verify ⟨[("S", 0)]⟩ (some "S")).2) (some "S")).1
          = false := by
  refine ⟨by decide, ?_, ?_, ?_⟩
  · have h := (c4_oauth_state_lazy_sweep ⟨[]⟩ "S" 0 599 (by decide)).1
    rw [h]
    norm_num [OAUTH_STATE_TTL_SECONDS]
  · have h := (c4_oauth_state_lazy_sweep ⟨[]⟩ "S" 0 601 (by decide)).1
    rw [h]
    norm_num [OAUTH_STATE_TTL_SECONDS]
  · exact ((c4_oauth_state_lazy_sweep ⟨[]⟩ "S" 0 0 (by decide)).2.2
      ⟨[("S", 0)]⟩ rfl).2

/-! ## Weather mapping — `home_dashboard/models/weather.py`

The numeric payload fields (`temp`, `wind.speed`) are modelled as exact
rationals; every threshold constant in the source is exactly
representable.  The emoji in the source file are stored mojibake-encoded
(double-encoded UTF-8); the string tables below reproduce the file's
code points exactly, written with escapes. -/

/-- Embeds `MainInfo`, reduced to the fields read by the mapping. -/
structure MainInfo where
  temp : ℚ
  feels_like : ℚ
  deriving DecidableEq, Repr

/-- Embeds `WindInfo` (`weather.py` lines 26-31). -/
structure WindInfo where
  speed : ℚ
  deg : ℤ
  deriving DecidableEq, Repr

/-- Embeds `WeatherInfo`, reduced to the fields read by the mapping. -/
structure WeatherInfo where
  main : String
  icon : String
  deriving DecidableEq, Repr

/-- Embeds `CurrentWeather`, reduced to the fields read by `from_openweather`. -/
structure CurrentWeather where
  weather : List WeatherInfo
  main : MainInfo
  wind : WindInfo
  name : String
  deriving DecidableEq, Repr

/-- Embeds `WeatherResponse` fields (`weather.py` lines 58-68). -/
structure WeatherResponse where
  temp : ℚ
  feels_like : ℚ
  condition : String
  icon : String
  location : String
  recommendation : String
  wind_speed : ℚ
  wind_deg : ℤ
  deriving DecidableEq, Repr

/-- Embeds `bisect.bisect_right` as used on the sorted threshold lists below:
the insertion point is the length of the maximal prefix of elements
`≤ x` (identical to the binary search result on a sorted list). -/
def bisect_right (thresholds : List ℚ) (x : ℚ) : ℕ :=
  (thresholds.takeWhile (fun t => decide (t ≤ x))).length

/-- Python 3 `round()` on an exact rational: round half to even. -/
def pythonRound (q : ℚ) : ℤ :=
  if q - ⌊q⌋ < 1/2 then ⌊q⌋
  else if q - ⌊q⌋ > 1/2 then ⌊q⌋ + 1
  else if ⌊q⌋ % 2 = 0 then ⌊q⌋ else ⌊q⌋ + 1

/-- Embeds `temp_thresholds = [5, 10, 15, 20, 25]` (`weather.py` line 132). -/
def temp_thresholds : List ℚ := [5, 10, 15, 20, 25]

/-- The `recommendations` list of `from_openweather` (`weather.py` lines
133-140), code point for code point as stored in the file. -/
def recommendations : List String :=
  ["Bundle up! It\x27s very cold outside. â„ï¸",
   "Wear a warm jacket. ğŸ§¥",
   "Light jacket recommended. ğŸ‚",
   "Perfect temperature! ğŸ˜Š",
   "Nice and warm! â˜€ï¸",
   "Stay cool and hydrated! ğŸŒ¡ï¸"]

/-- The 8-point compass-arrow table of `wind_direction_compass`
(`weather.py` line 78), code point for code point as stored in the
file. -/
def directions : List String :=
  ["â†“", "â†™", "â†",
   "â†–", "â†‘", "â†—",
   "â†’", "â†˜"]

/-- The Beaufort lower-bound thresholds in m/s (`weather.py` line 92). -/
def beaufort_thresholds : List ℚ :=
  [0.5, 1.6, 3.4, 5.5, 8.0, 10.8, 13.9, 17.2, 20.8, 24.5, 28.5, 32.7]

/-- Embeds `WeatherResponse.from_openweather` (`weather.py` lines 115-153):
condition and icon from `weather[0]` (with `"Unknown"`/`""` fallbacks on
an empty list), and the recommendation selected with
`bisect.bisect_right(temp_thresholds, temp)`. -/
def WeatherResponse.from_openweather (data : CurrentWeather) :
    WeatherResponse :=
  let temp := data.main.temp
  let condition := match data.weather with
    | [] => "Unknown"
    | w :: _ => w.main
  let icon := match data.weather with
    | [] => ""
    | w :: _ => w.icon
  let idx := bisect_right temp_thresholds temp
  ⟨temp, data.main.feels_like, condition, icon, data.name,
    recommendations.getD idx "", data.wind.speed, data.wind.deg⟩

/-- Embeds `WeatherResponse.wind_direction_compass` (`weather.py` lines 75-80):
`directions[round(self.wind_deg / 45) % 8]` with Python integer `%`
(non-negative result), embedded with `Int.emod`. -/
def WeatherResponse.wind_direction_compass (w : WeatherResponse) : String :=
  directions.getD ((pythonRound ((w.wind_deg : ℚ) / 45)) % 8).toNat ""

/-- Embeds `WeatherResponse.beaufort_scale` (`weather.py` lines 82-93):
`bisect.bisect_right(thresholds, self.wind_speed)`. -/
def WeatherResponse.beaufort_scale (w : WeatherResponse) : ℕ :=
  bisect_right beaufort_thresholds w.wind_speed

/-- C10: the weather mapping is a pure function (equal inputs give equal
outputs), and it satisfies the claimed threshold table entries: a payload
with `temp = 3.0` maps to the coldest-bucket recommendation string
(`recommendations[0]`); `wind_deg = 0` maps to the compass arrow at index
`round(0/45) % 8 = 0` of the 8-point table; and `wind_speed = 6.5` maps
to Beaufort number 4. -/
theorem c10_weather_mapping (d : CurrentWeather) (h3 : d.main.temp = 3)
    (h0 : d.wind.deg = 0) (h65 : d.wind.speed = 13/2) :
    ((WeatherResponse.from_openweather d).recommendation
        = recommendations.getD 0 "")
      ∧ ((WeatherResponse.from_openweather d).wind_direction_compass
          = directions.getD 0 "")
      ∧ ((WeatherResponse.from_openweather d).beaufort_scale = 4)
      ∧ ∀ d2 : CurrentWeather, d2 = d →
          WeatherResponse.from_openweather d2
            = WeatherResponse.from_openweather d := by
  refine ⟨?_, ?_, ?_, fun d2 h => by rw [h]⟩
  · have : bisect_right temp_thresholds d.main.temp = 0 := by
      rw [h3]
      norm_num [bisect_right, temp_thresholds]
    simp [WeatherResponse.from_openweather, this]
  · have hdeg : (WeatherResponse.from_openweather d).wind_deg = 0 := by
      simp [WeatherResponse.from_openweather, h0]
    rw [WeatherResponse.wind_direction_compass, hdeg]
    norm_num [pythonRound]
  · have hsp : (WeatherResponse.from_openweather d).wind_speed = 13/2 := by
      simp [WeatherResponse.from_openweather, h65]
    rw [WeatherResponse.beaufort_scale, hsp]
    norm_num [bisect_right, beaufort_thresholds]

/-- Witness for C10 at a concrete payload with `temp = 3.0`,
`wind_deg = 0`, `wind_speed = 6.5`. -/
theorem c10_weather_mapping_witness :
    ((WeatherResponse.from_openweather
        ⟨[⟨"Clouds", "04d"⟩], ⟨3, 1⟩, ⟨13/2, 0⟩, "Berlin"⟩).recommendation
      = recommendations.getD 0 "")
      ∧ ((WeatherResponse.from_openweather
          ⟨[⟨"Clouds", "04d"⟩], ⟨3, 1⟩, ⟨13/2, 0⟩, "Berlin"⟩).beaufort_scale
        = 4) :=
  ⟨(c10_weather_mapping ⟨[⟨"Clouds", "04d"⟩], ⟨3, 1⟩, ⟨13/2, 0⟩, "Berlin"⟩
      rfl rfl rfl).1,
   (c10_weather_mapping ⟨[⟨"Clouds", "04d"⟩], ⟨3, 1⟩, ⟨13/2, 0⟩, "Berlin"⟩
      rfl rfl rfl).2.2.1⟩
